import Mathlib

/-!
Shallow embedding of `bzt/modules/services.py` (Taurus helper services):
the helper-process loaders (`AndroidEmulatorLoader`, `AppiumLoader`), the
virtual-display singleton (`VirtualDisplay`), and the installation auditor
(`InstallChecker`), together with theorems about their behaviour.

Python exceptions are modelled by the `PyErr` type below; a Python method
that can raise is embedded as a function into `Except PyErr _`.  OS state
touched by the methods (process handle, sink file handles, files on disk,
the process-wide display slot) is made explicit as record fields.
-/

set_option autoImplicit false

namespace Services

/-- Python exceptions that the embedded code can raise. -/
inductive PyErr where
  /-- `AttributeError`, e.g. from `None.closed`. -/
  | attributeError
  /-- `FileNotFoundError` (an `OSError`), e.g. from `os.stat` on a removed file. -/
  | fileNotFoundError
  /-- `NameError` for an unbound global name. -/
  | nameError (n : String)
  /-- `bzt.ToolError`. -/
  | toolError (msg : String)
  deriving DecidableEq, Repr

/-! ## ProcessSupervisor state (AndroidEmulatorLoader / AppiumLoader)

Both loaders hold: a process handle (`emulator_process` / `appium_process`,
`None` until `startup` spawns it, never reset), two sink file handles
(`self.stdout` / `self.stderr`, `None` until `startup` opens them, each with
a `closed` flag), and the two on-disk sink files (modelled by their size,
`none` once the file has been removed).  `startup` opens the sinks in append
mode `ab`, which creates the files. -/

/-- An open Python file object: only its `closed` flag matters here
(its `name` is fixed per loader). -/
structure SinkHandle where
  closed : Bool
  deriving DecidableEq, Repr

/-- Observable state of one loader (`AndroidEmulatorLoader` or `AppiumLoader`). -/
structure LoaderState where
  /-- `self.emulator_process` / `self.appium_process`: `none` until spawned. -/
  process : Option Unit
  /-- Whether the spawned OS process is still running. -/
  procAlive : Bool
  /-- `self.stdout`: `none` until `startup` opens it. -/
  stdout : Option SinkHandle
  /-- `self.stderr`: `none` until `startup` opens it. -/
  stderr : Option SinkHandle
  /-- The stdout sink file on disk: `some size`, or `none` if absent/removed. -/
  outFile : Option Nat
  /-- The stderr sink file on disk: `some size`, or `none` if absent/removed. -/
  errFile : Option Nat
  deriving DecidableEq, Repr

namespace AndroidEmulatorLoader

/-- `AndroidEmulatorLoader.shutdown` (services.py lines 173-186):
```
if self.emulator_process:
    shutdown_process(self.emulator_process, self.log)
if not self.stdout.closed:
    self.stdout.close()
if not self.stderr.closed:
    self.stderr.close()
_file = self.stdout.name
if not os.stat(_file).st_size:
    os.remove(_file)
_file = self.stderr.name
if not os.stat(_file).st_size:
    os.remove(_file)
```
`shutdown_process` terminates the process (idempotently); `self.stdout.closed`
on `None` raises `AttributeError`; `os.stat` on a removed file raises
`FileNotFoundError`. -/
def shutdown (s : LoaderState) : Except PyErr LoaderState :=
  let s := if s.process.isSome then { s with procAlive := false } else s
  match s.stdout with
  | none => .error .attributeError
  | some out =>
  let s := if out.closed then s else { s with stdout := some { out with closed := true } }
  match s.stderr with
  | none => .error .attributeError
  | some err =>
  let s := if err.closed then s else { s with stderr := some { err with closed := true } }
  match s.outFile with
  | none => .error .fileNotFoundError
  | some outSz =>
  let s := if outSz = 0 then { s with outFile := none } else s
  match s.errFile with
  | none => .error .fileNotFoundError
  | some errSz =>
  let s := if errSz = 0 then { s with errFile := none } else s
  .ok s

end AndroidEmulatorLoader

namespace AppiumLoader

/-- `AppiumLoader.shutdown` (services.py lines 238-251): textually the same
cleanup as `AndroidEmulatorLoader.shutdown`, over `self.appium_process` and
the `appium.out` / `appium.err` sinks. -/
def shutdown (s : LoaderState) : Except PyErr LoaderState :=
  let s := if s.process.isSome then { s with procAlive := false } else s
  match s.stdout with
  | none => .error .attributeError
  | some out =>
  let s := if out.closed then s else { s with stdout := some { out with closed := true } }
  match s.stderr with
  | none => .error .attributeError
  | some err =>
  let s := if err.closed then s else { s with stderr := some { err with closed := true } }
  match s.outFile with
  | none => .error .fileNotFoundError
  | some outSz =>
  let s := if outSz = 0 then { s with outFile := none } else s
  match s.errFile with
  | none => .error .fileNotFoundError
  | some errSz =>
  let s := if errSz = 0 then { s with errFile := none } else s
  .ok s

end AppiumLoader

/-- The loader state right after `__init__` (process handle and both sinks
`None`, no sink files on disk). -/
def initState : LoaderState :=
  { process := none, procAlive := false, stdout := none, stderr := none,
    outFile := none, errFile := none }

/-- The loader state once `startup` has completed: process spawned, both
sinks open (append mode created the files, whose sizes are `outSz`/`errSz`). -/
def startedState (outSz errSz : Nat) : LoaderState :=
  { process := some (), procAlive := true,
    stdout := some { closed := false }, stderr := some { closed := false },
    outFile := some outSz, errFile := some errSz }

/-- The loader state after one successful `shutdown` from
`startedState outSz errSz`: process terminated, sinks closed, each sink file
pruned iff it was empty. -/
def closedState (outSz errSz : Nat) : LoaderState :=
  { process := some (), procAlive := false,
    stdout := some { closed := true }, stderr := some { closed := true },
    outFile := if outSz = 0 then none else some outSz,
    errFile := if errSz = 0 then none else some errSz }

/-! ## Python string helpers

Python `str.strip()` and `str.split(",")` are embedded over `List Char` with
structural recursion (so that proofs can evaluate them), and wrapped back
into `String`. -/

/-- The whitespace characters removed by Python `str.strip()`
(restricted to ASCII, which is all that occurs here). -/
def pyIsSpace (c : Char) : Bool :=
  c = ' ' ∨ c = '\t' ∨ c = '\n' ∨ c = '\r' ∨ c = '\x0b' ∨ c = '\x0c'

/-- Python `str.strip()`: drop leading and trailing whitespace. -/
def pyStripChars (cs : List Char) : List Char :=
  ((cs.dropWhile pyIsSpace).reverse.dropWhile pyIsSpace).reverse

/-- Python `str.strip()`. -/
def pyStrip (s : String) : String :=
  String.mk (pyStripChars s.data)

/-- Python `str.split(",")` over the character list: split at every comma,
never merging adjacent separators; `[] ↦ [[]]` matches `"".split(",") == [""]`. -/
def pySplitCommaChars : List Char → List (List Char)
  | [] => [[]]
  | c :: rest =>
    if c = ',' then [] :: pySplitCommaChars rest
    else
      match pySplitCommaChars rest with
      | [] => [[c]]
      | w :: ws => (c :: w) :: ws

/-- Python `str.split(",")`. -/
def pySplitComma (s : String) : List String :=
  (pySplitCommaChars s.data).map String.mk

/-! ## Readiness probes -/

/-- Outcome of running the adb diagnostic command
(`shell_exec` + `communicate` in `AndroidEmulatorLoader.tool_is_started`):
either it produced output `out`, or executing it raised (`msg`). -/
inductive ExecOutcome where
  | ran (out : String)
  | raised (msg : String)
  deriving DecidableEq, Repr

namespace AndroidEmulatorLoader

/-- `AndroidEmulatorLoader.tool_is_started` (services.py lines 159-171):
```
try:
    proc = shell_exec(cmd)
    out, _ = communicate(proc)
    return out.strip() == '1'
except BaseException as exc:
    raise ToolError("Checking if android emulator starts is impossible: %s", exc)
```
as a function of what the diagnostic command does. -/
def tool_is_started : ExecOutcome → Except PyErr Bool
  | .ran out => .ok (pyStrip out == "1")
  | .raised msg => .error (.toolError msg)

end AndroidEmulatorLoader

/-- What the `/wd/hub/sessions` HTTP interaction would produce if performed:
`urlError` is a connection failure (`URLError`, e.g. connection refused);
`bodyDict` a response body that `json.loads` parses to a dict; `bodyNonDict`
a body that parses to some non-dict JSON value; `bodyMalformed` a body on
which `json.loads` raises `ValueError`. -/
inductive HttpOutcome where
  | urlError
  | bodyDict
  | bodyNonDict
  | bodyMalformed
  deriving DecidableEq, Repr

/-- The global names bound at top level of `bzt/modules/services.py`: the
imported names (lines 19-38) plus the classes defined in the module.
Notably it binds neither `urlopen` nor `URLError`. -/
def servicesModuleGlobals : List String :=
  ["copy", "json", "os", "subprocess", "time", "zipfile",
   "communicate", "text_type", "string_types",
   "NormalShutdown", "ToolError", "TaurusConfigError", "TaurusInternalException",
   "Service", "HavingInstallableTools", "Singletone", "ScenarioExecutor",
   "get_stacktrace",
   "get_full_path", "shutdown_process", "shell_exec", "RequiredTool", "is_windows",
   "replace_in_config", "JavaVM", "Node", "Environment",
   "Display",
   "Unpacker", "InstallChecker", "AndroidEmulatorLoader", "AppiumLoader",
   "Appium", "AndroidEmulator", "VirtualDisplay"]

namespace AppiumLoader

/-- `AppiumLoader.tool_is_started` (services.py lines 228-236):
```
try:
    response = urlopen("http://%s:%s%s" % (self.addr, self.port, "/wd/hub/sessions"))
    resp_str = response.read()
    if not isinstance(resp_str, str):
        resp_str = resp_str.decode()
    return isinstance(json.loads(resp_str), dict)
except (URLError, ValueError):
    return False
```
as a function of the module global namespace `g` and of what the HTTP
interaction would produce.  Python resolves `urlopen` in `g` at call time,
before any request is made: if it is unbound the call raises `NameError`.
If the try block raises (`URLError` from `urlopen`, or `ValueError` from
`json.loads`), the handler first evaluates the tuple `(URLError, ValueError)`,
which itself raises `NameError` when `URLError` is unbound. -/
def tool_is_started (g : List String) : HttpOutcome → Except PyErr Bool
  | .urlError =>
      if "urlopen" ∈ g then
        if "URLError" ∈ g then .ok false else .error (.nameError "URLError")
      else .error (.nameError "urlopen")
  | .bodyDict =>
      if "urlopen" ∈ g then .ok true else .error (.nameError "urlopen")
  | .bodyNonDict =>
      if "urlopen" ∈ g then .ok false else .error (.nameError "urlopen")
  | .bodyMalformed =>
      if "urlopen" ∈ g then
        if "URLError" ∈ g then .ok false else .error (.nameError "URLError")
      else .error (.nameError "urlopen")

end AppiumLoader

/-! ## The startup polling loop

Both `startup` methods run (services.py lines 152-156 and 220-224):
```
start_time = time.time()
while not self.tool_is_started():
    time.sleep(1)
    if time.time() - start_time > self.startup_timeout:
        raise ToolError(...)
```
`pollLoop probe timeout t` models the loop under the assumption that each
probe call takes negligible time, so that the elapsed time is exactly the
number of 1-second sleeps performed: the probe runs at integer elapsed
times `t, t+1, ...`, and after each sleep the elapsed time is checked
strictly against `timeout`.  A probe exception propagates out of the loop
(the loop body catches nothing). -/

/-- Result of the startup polling loop: the helper became ready at elapsed
time `t`; or the deadline was exceeded (`ToolError` raised) at elapsed time
`t`; or a probe call raised `e` at elapsed time `t`, propagating out. -/
inductive PollResult where
  | ready (t : Nat)
  | timedOut (t : Nat)
  | probeErr (e : PyErr) (t : Nat)
  deriving DecidableEq, Repr

/-- The polling loop of `startup`, started at elapsed time `t`. -/
def pollLoop (probe : Nat → Except PyErr Bool) (timeout : Nat) (t : Nat) : PollResult :=
  match probe t with
  | .error e => .probeErr e t
  | .ok true => .ready t
  | .ok false =>
    if timeout < t + 1 then .timedOut (t + 1)
    else pollLoop probe timeout (t + 1)
termination_by timeout + 1 - t

/-! ## VirtualDisplay

`VirtualDisplay` instances share one class-level slot
`VirtualDisplay.SHARED_VIRTUAL_DISPLAY`.  A `Display` instance is modelled
by its size `(width, height) : Nat × Nat`; the class-level slot by
`Option (Nat × Nat)`.  The process-wide state also carries `created`, the
number of `Display` instances constructed and started so far (history
instrumentation for the 0-or-1-instances invariant; nothing in the embedded
code reads it). -/

/-- Process-wide state relevant to `VirtualDisplay`. -/
structure VDState where
  /-- `VirtualDisplay.SHARED_VIRTUAL_DISPLAY`. -/
  shared : Option (Nat × Nat)
  /-- How many `Display` instances have been constructed and started. -/
  created : Nat
  deriving DecidableEq, Repr

namespace VirtualDisplay

/-- `VirtualDisplay.set_virtual_display` (services.py lines 301-317):
```
if is_windows():
    self.log.warning("Cannot have virtual display on Windows, ignoring")
    return

if VirtualDisplay.SHARED_VIRTUAL_DISPLAY:
    self.virtual_display = VirtualDisplay.SHARED_VIRTUAL_DISPLAY
else:
    width = self.parameters.get("width", 1024)
    height = self.parameters.get("height", 768)
    self.virtual_display = Display(size=(width, height))
    ...
    self.virtual_display.start()
    VirtualDisplay.SHARED_VIRTUAL_DISPLAY = self.virtual_display
```
Arguments: the platform flag, the `width`/`height` parameters of the requester
(`none` when unset, defaulted to 1024/768), and the process-wide state.
Returns the new process-wide state and the `self.virtual_display` of the requester
after the call (`none` on the Windows early return, where it is untouched
from its `__init__` value). -/
def set_virtual_display (windows : Bool) (widthParam heightParam : Option Nat)
    (s : VDState) : VDState × Option (Nat × Nat) :=
  if windows then (s, none)
  else
    match s.shared with
    | some d => (s, some d)
    | none =>
      let width := widthParam.getD 1024
      let height := heightParam.getD 768
      let d := (width, height)
      ({ shared := some d, created := s.created + 1 }, some d)

/-- `VirtualDisplay.free_virtual_display` (services.py lines 319-323):
```
if self.virtual_display and self.virtual_display.is_alive():
    self.virtual_display.stop()
if VirtualDisplay.SHARED_VIRTUAL_DISPLAY:
    VirtualDisplay.SHARED_VIRTUAL_DISPLAY = None
```
Here `self_view` is the `self.virtual_display` of this requester, `alive` whether that
display is alive.  Returns the new `SHARED_VIRTUAL_DISPLAY` slot and whether
`stop()` was invoked.  The `and` short-circuits, so `is_alive` is never
read off `None` and the function raises nothing. -/
def free_virtual_display (self_view : Option (Nat × Nat)) (alive : Bool)
    (shared : Option (Nat × Nat)) : Option (Nat × Nat) × Bool :=
  let stopped := match self_view with
    | some _ => alive
    | none => false
  let shared' := match shared with
    | some _ => none
    | none => none
  (shared', stopped)

/-- Repeated `set_virtual_display` calls (`startup` of N requester
instances), threading the process-wide state; each list entry is one
`(width, height)` parameters of one requester. -/
def runAcquires (windows : Bool) (s : VDState) :
    List (Option Nat × Option Nat) → VDState
  | [] => s
  | (w, h) :: rest =>
      runAcquires windows (set_virtual_display windows w h s).1 rest

/-- The process-wide states visited by `runAcquires`, initial state first. -/
def acquireTrace (windows : Bool) (s : VDState) :
    List (Option Nat × Option Nat) → List VDState
  | [] => [s]
  | (w, h) :: rest =>
      s :: acquireTrace windows (set_virtual_display windows w h s).1 rest

end VirtualDisplay

/-! ## InstallChecker -/

/-- The shapes a configured `include`/`exclude` filter value can take:
a string, a list of names, a dict (iterated as its keys), or any other
value (a number, `None`, ...). -/
inductive PyFilterVal where
  | str (s : String)
  | list (xs : List String)
  | dict (keys : List String)
  | other
  deriving DecidableEq, Repr

/-- What `self._check_module(mod_name)` does for a given module: returns
normally (possibly after the no-install-needs early return), raises some
`BaseException` other than `KeyboardInterrupt`, or raises
`KeyboardInterrupt`. -/
inductive CheckOutcome where
  | ok
  | fails
  | interrupt
  deriving DecidableEq, Repr

/-- How `InstallChecker.prepare` terminates: re-raised `KeyboardInterrupt`;
`ToolError` listing the failing modules; or `NormalShutdown`.  There is no
normal-return alternative: the source method always raises. -/
inductive PrepareResult where
  | interrupted
  | toolError (problems : List String)
  | normalShutdown
  deriving DecidableEq, Repr

namespace InstallChecker

/-- `InstallChecker._parse_module_filter` (services.py lines 65-73):
```
if isinstance(filter_value, (string_types, text_type)):
    filter = set(filter_value.strip().split(","))
elif isinstance(filter_value, (list, dict)):
    filter = set(filter_value)
else:
    filter = set()
return filter
```
Python sets of strings are modelled as `Finset String`. -/
def _parse_module_filter : PyFilterVal → Finset String
  | .str s => (pySplitComma (pyStrip s)).toFinset
  | .list xs => xs.toFinset
  | .dict keys => keys.toFinset
  | .other => ∅

/-- The loop body and termination of `InstallChecker.prepare`
(services.py lines 80-98), as a recursion over the configured modules
(each paired with what `_check_module` does on it), carrying the
`problems` accumulator:
```
for mod_name in modules:
    if include_set and mod_name not in include_set:
        continue
    if exclude_set and mod_name in exclude_set:
        continue
    try:
        self._check_module(mod_name)
    except KeyboardInterrupt:
        raise
    except BaseException as exc:
        ...
        problems.append(mod_name)

if problems:
    raise ToolError("There were errors while checking for installed tools for %s, ..." % problems)

raise NormalShutdown("Done checking for tools installed, will exit now")
``` -/
def prepareLoop (include_set exclude_set : Finset String) :
    List (String × CheckOutcome) → List String → PrepareResult
  | [], problems =>
      if problems ≠ [] then .toolError problems else .normalShutdown
  | (mod_name, oc) :: rest, problems =>
      if include_set ≠ ∅ ∧ mod_name ∉ include_set then
        prepareLoop include_set exclude_set rest problems
      else if exclude_set ≠ ∅ ∧ mod_name ∈ exclude_set then
        prepareLoop include_set exclude_set rest problems
      else
        match oc with
        | .ok => prepareLoop include_set exclude_set rest problems
        | .fails => prepareLoop include_set exclude_set rest (problems ++ [mod_name])
        | .interrupt => .interrupted

/-- `InstallChecker.prepare` (services.py lines 75-98), from the already
parsed filter sets and the configured modules with their check outcomes. -/
def prepare (include_set exclude_set : Finset String)
    (modules : List (String × CheckOutcome)) : PrepareResult :=
  prepareLoop include_set exclude_set modules []

/-- The module names `prepare` actually submits to `_check_module`
(those not skipped by the filters), in order, stopping at a
`KeyboardInterrupt`.  Follows the same loop as `prepareLoop`. -/
def checkedModules (include_set exclude_set : Finset String) :
    List (String × CheckOutcome) → List String
  | [] => []
  | (mod_name, oc) :: rest =>
      if include_set ≠ ∅ ∧ mod_name ∉ include_set then
        checkedModules include_set exclude_set rest
      else if exclude_set ≠ ∅ ∧ mod_name ∈ exclude_set then
        checkedModules include_set exclude_set rest
      else
        match oc with
        | .interrupt => [mod_name]
        | _ => mod_name :: checkedModules include_set exclude_set rest

/-- The filtering rule of the `prepare` loop, as a predicate: a configured
module name is skipped iff the include set is non-empty and does not contain
it, or it is in the exclude set (`exclude_set and mod_name in exclude_set`
is truth-equivalent to `mod_name ∈ exclude_set`). -/
def skipsModule (include_set exclude_set : Finset String) (mod_name : String) : Bool :=
  decide ((include_set ≠ ∅ ∧ mod_name ∉ include_set) ∨ mod_name ∈ exclude_set)

/-- The non-skipped modules whose check fails, in configuration order:
the list `prepare` is expected to aggregate into its `ToolError`. -/
def failingModules (include_set exclude_set : Finset String)
    (modules : List (String × CheckOutcome)) : List String :=
  (modules.filter fun p =>
    !skipsModule include_set exclude_set p.1 && decide (p.2 = CheckOutcome.fails)).map Prod.fst

end InstallChecker

/-! ## Theorems -/

/-- C1 (counterexample): `shutdown()` twice in succession after `startup()` is
not idempotent and the second call does fail: when both sink files are empty,
the first call prunes them, and the `os.stat` of the second call on the pruned
stdout file raises `FileNotFoundError`.  Shown for both loaders. -/
theorem shutdown_second_call_raises_on_pruned_file :
    AndroidEmulatorLoader.shutdown (startedState 0 0) = .ok (closedState 0 0) ∧
    AndroidEmulatorLoader.shutdown (closedState 0 0) = .error .fileNotFoundError ∧
    AppiumLoader.shutdown (startedState 0 0) = .ok (closedState 0 0) ∧
    AppiumLoader.shutdown (closedState 0 0) = .error .fileNotFoundError :=
  ⟨rfl, rfl, rfl, rfl⟩

/-- C1 (amended): after `startup()`, the first `shutdown()` terminates the
process, closes both sinks and prunes each sink file iff it is empty; a
second `shutdown()` reproduces the same state and fails nothing iff neither
sink file was pruned (both non-empty); if either sink file was empty, the
second call raises `FileNotFoundError` from `os.stat` on the pruned file. -/
theorem shutdown_twice_characterization (outSz errSz : Nat) :
    (AndroidEmulatorLoader.shutdown (startedState outSz errSz) = .ok (closedState outSz errSz) ∧
     AppiumLoader.shutdown (startedState outSz errSz) = .ok (closedState outSz errSz)) ∧
    (0 < outSz → 0 < errSz →
      AndroidEmulatorLoader.shutdown (closedState outSz errSz) = .ok (closedState outSz errSz) ∧
      AppiumLoader.shutdown (closedState outSz errSz) = .ok (closedState outSz errSz)) ∧
    (outSz = 0 ∨ errSz = 0 →
      AndroidEmulatorLoader.shutdown (closedState outSz errSz) = .error .fileNotFoundError ∧
      AppiumLoader.shutdown (closedState outSz errSz) = .error .fileNotFoundError) := by
  refine ⟨?_, ?_, ?_⟩
  · rcases outSz with _ | o <;> rcases errSz with _ | e <;>
      simp [AndroidEmulatorLoader.shutdown, AppiumLoader.shutdown, startedState, closedState]
  · intro ho he
    rcases outSz with _ | o
    · exact absurd ho (by omega)
    rcases errSz with _ | e
    · exact absurd he (by omega)
    simp [AndroidEmulatorLoader.shutdown, AppiumLoader.shutdown, closedState]
  · intro h
    rcases outSz with _ | o <;> rcases errSz with _ | e <;>
      [skip; skip; skip; exact absurd h (by omega)] <;>
      simp [AndroidEmulatorLoader.shutdown, AppiumLoader.shutdown, closedState]

/-- Witness for `shutdown_twice_characterization` at concrete sizes: with
both sink files of size 1 the second `shutdown` is a no-op success, and with
an empty stdout sink file it raises. -/
theorem shutdown_twice_characterization_witness :
    (AndroidEmulatorLoader.shutdown (closedState 1 1) = .ok (closedState 1 1) ∧
     AppiumLoader.shutdown (closedState 1 1) = .ok (closedState 1 1)) ∧
    AndroidEmulatorLoader.shutdown (closedState 0 1) = .error .fileNotFoundError :=
  ⟨(shutdown_twice_characterization 1 1).2.1 (by omega) (by omega),
   ((shutdown_twice_characterization 0 1).2.2 (Or.inl rfl)).1⟩

/-- C2 (counterexample): `shutdown()` invoked on a freshly constructed
loader (before `startup()` opened the sinks) is not safe: `self.stdout` is
`None`, so `self.stdout.closed` raises `AttributeError`.  Both loaders. -/
theorem shutdown_before_startup_raises :
    AndroidEmulatorLoader.shutdown initState = .error .attributeError ∧
    AppiumLoader.shutdown initState = .error .attributeError :=
  ⟨rfl, rfl⟩

/-- C2 (amended): `shutdown()` raises nothing only once `startup()` has
opened both sinks and both sink files are on disk; with `self.stdout` (or
`self.stderr`) still `None` — in particular before `startup()` — it raises
`AttributeError`, whatever the rest of the state is. -/
theorem shutdown_safe_iff_sinks_open (p : Option Unit) (pa oc ec : Bool)
    (se : Option SinkHandle) (of ef : Option Nat) (osz esz : Nat) :
    (AndroidEmulatorLoader.shutdown ⟨p, pa, none, se, of, ef⟩ = .error .attributeError ∧
     AppiumLoader.shutdown ⟨p, pa, none, se, of, ef⟩ = .error .attributeError) ∧
    (AndroidEmulatorLoader.shutdown ⟨p, pa, some ⟨oc⟩, none, of, ef⟩ = .error .attributeError ∧
     AppiumLoader.shutdown ⟨p, pa, some ⟨oc⟩, none, of, ef⟩ = .error .attributeError) ∧
    ((AndroidEmulatorLoader.shutdown ⟨p, pa, some ⟨oc⟩, some ⟨ec⟩, some osz, some esz⟩).isOk
        = true ∧
     (AppiumLoader.shutdown ⟨p, pa, some ⟨oc⟩, some ⟨ec⟩, some osz, some esz⟩).isOk = true) := by
  refine ⟨?_, ?_, ?_⟩ <;>
    cases p <;> cases oc <;> cases ec <;> rcases osz with _ | osz <;> rcases esz with _ | esz <;>
      simp [AndroidEmulatorLoader.shutdown, AppiumLoader.shutdown, Except.isOk, Except.toBool]

/-- Helper: if the probe reports not-ready strictly before step `k` and
raises at step `k ≤ timeout`, the polling loop started at `t ≤ k` propagates
the exception at elapsed time `k` (it is not retried). -/
theorem pollLoop_propagates_error (probe : Nat → Except PyErr Bool) (timeout : Nat)
    (e : PyErr) (k : Nat) (hk : k ≤ timeout) (hfail : probe k = .error e) :
    ∀ n t, t + n = k → (∀ u, t ≤ u → u < k → probe u = .ok false) →
    pollLoop probe timeout t = .probeErr e k := by
  intro n
  induction n with
  | zero =>
    intro t ht _
    obtain rfl : t = k := by omega
    rw [pollLoop.eq_def, hfail]
  | succ m ih =>
    intro t ht hnr
    have h1 : probe t = .ok false := hnr t le_rfl (by omega)
    have h2 : ¬ timeout < t + 1 := by omega
    rw [pollLoop.eq_def, h1]
    simp only [h2, if_false]
    exact ih (t + 1) (by omega) (fun u hu1 hu2 => hnr u (by omega) hu2)

/-- Helper: a probe that never reports ready (and never raises) drives the
polling loop started at `t ≤ timeout` into the timeout branch at elapsed
time `timeout + 1`. -/
theorem pollLoop_exhausts_timeout (probe : Nat → Except PyErr Bool) (timeout : Nat)
    (hnr : ∀ t, probe t = .ok false) :
    ∀ n t, t + n = timeout + 1 → t ≤ timeout →
    pollLoop probe timeout t = .timedOut (timeout + 1) := by
  intro n
  induction n with
  | zero => intro t ht hle; omega
  | succ m ih =>
    intro t ht hle
    rw [pollLoop.eq_def, hnr t]
    by_cases h : timeout < t + 1
    · obtain rfl : t = timeout := by omega
      simp [h]
    · simp only [h, if_false]
      exact ih (t + 1) (by omega) (by omega)

/-- C3 (code bug): `AppiumLoader.tool_is_started` reads the global names
`urlopen` and `URLError`, which `services.py` never imports (lines 19-38), so
every invocation of the HTTP readiness probe raises `NameError` instead of
reporting ready or not-ready.  With the two names bound — as the `except
(URLError, ValueError)` handler makes clear was intended — the probe behaves
exactly as the claim states: connection refused and malformed bodies give
not-ready, a JSON dict body gives ready, a non-dict JSON body gives
not-ready, and nothing is raised. -/
theorem appium_probe_raises_nameerror :
    (∀ o, AppiumLoader.tool_is_started servicesModuleGlobals o =
      .error (.nameError "urlopen")) ∧
    AppiumLoader.tool_is_started
      ("urlopen" :: "URLError" :: servicesModuleGlobals) .urlError = .ok false ∧
    AppiumLoader.tool_is_started
      ("urlopen" :: "URLError" :: servicesModuleGlobals) .bodyMalformed = .ok false ∧
    AppiumLoader.tool_is_started
      ("urlopen" :: "URLError" :: servicesModuleGlobals) .bodyNonDict = .ok false ∧
    AppiumLoader.tool_is_started
      ("urlopen" :: "URLError" :: servicesModuleGlobals) .bodyDict = .ok true := by
  refine ⟨fun o => ?_, rfl, rfl, rfl, rfl⟩
  cases o <;> rfl

/-- C4 (counterexample): a requester that never acquired (its own
`virtual_display` is `None`, certainly different from the published
instance) does not leave the published slot unchanged: `free_virtual_display`
still clears it. -/
theorem release_clears_foreign_instance :
    (VirtualDisplay.free_virtual_display none false (some (1024, 768))).1 = none ∧
    some (1024, 768) ≠ (none : Option (Nat × Nat)) :=
  ⟨rfl, by decide⟩

/-- C4 (amended): `release()` stops the display iff this requester holds a
live view, then clears the process-wide published slot unconditionally
whenever one is published — with no comparison of the view held by the caller against
the published instance — and is safe (total, raising nothing), in particular
when no instance was ever created. -/
theorem free_virtual_display_clears_unconditionally (self_view : Option (Nat × Nat))
    (alive : Bool) (shared : Option (Nat × Nat)) :
    (VirtualDisplay.free_virtual_display self_view alive shared).1 = none ∧
    ((VirtualDisplay.free_virtual_display self_view alive shared).2 = true ↔
      self_view.isSome = true ∧ alive = true) := by
  rcases self_view with _ | d <;> cases alive <;> rcases shared with _ | d2 <;>
    simp [VirtualDisplay.free_virtual_display]

/-- C5: the emulator command probe reports ready iff the trimmed diagnostic
output equals the sentinel `"1"` (so `""` is not-ready and retried), an
execution failure of the diagnostic command raises `ToolError`, and the
startup polling loop propagates such an exception at the very step where it
occurs instead of retrying it. -/
theorem emulator_probe_sentinel_and_fatal (out msg : String)
    (probe : Nat → Except PyErr Bool) (timeout k : Nat) :
    (AndroidEmulatorLoader.tool_is_started (.ran out) = .ok true ↔ pyStrip out = "1") ∧
    AndroidEmulatorLoader.tool_is_started (.ran "") = .ok false ∧
    AndroidEmulatorLoader.tool_is_started (.raised msg) = .error (.toolError msg) ∧
    (k ≤ timeout → probe k = .error (.toolError msg) →
      (∀ u, u < k → probe u = .ok false) →
      pollLoop probe timeout 0 = .probeErr (.toolError msg) k) := by
  refine ⟨?_, rfl, rfl, ?_⟩
  · simp [AndroidEmulatorLoader.tool_is_started]
  · intro hk hfail hnr
    exact pollLoop_propagates_error probe timeout _ k hk hfail k 0 (by omega)
      (fun u _ hu2 => hnr u hu2)

/-- Witness for `emulator_probe_sentinel_and_fatal`: a diagnostic command
that raises on the very first probe call aborts the polling loop at elapsed
time 0. -/
theorem emulator_probe_sentinel_and_fatal_witness :
    pollLoop (fun t => if t = 0 then .error (.toolError "fail") else .ok false) 5 0 =
      .probeErr (.toolError "fail") 0 :=
  (emulator_probe_sentinel_and_fatal "" "fail"
      (fun t => if t = 0 then .error (.toolError "fail") else .ok false) 5 0).2.2.2
    (by omega) (by simp) (fun u hu => absurd hu (Nat.not_lt_zero u))

/-- C6 (counterexample): with the default timeout T = 30 and a probe that
never reports ready, the loop raises at elapsed time 31 = T + 1, which is
not `< T +` one (1-second) poll interval as the claim requires. -/
theorem poll_timeout_claim_bound_fails :
    pollLoop (fun _ => .ok false) 30 0 = .timedOut 31 ∧ ¬ (31 < 30 + 1) :=
  ⟨by simp [pollLoop], by omega⟩

/-- C6 (amended): for every configured timeout `T` and a probe that never
reports ready (and never raises), the startup polling loop terminates by
raising its `ToolError` at elapsed time exactly `T + 1` — strictly greater
than `T` and at most (not strictly less than) `T` plus one poll interval —
assuming each probe call takes negligible time. -/
theorem poll_timeout_elapsed_bounds (probe : Nat → Except PyErr Bool) (timeout : Nat)
    (hnr : ∀ t, probe t = .ok false) :
    pollLoop probe timeout 0 = .timedOut (timeout + 1) ∧
    timeout < timeout + 1 ∧ timeout + 1 ≤ timeout + 1 :=
  ⟨pollLoop_exhausts_timeout probe timeout hnr (timeout + 1) 0 (by omega) (by omega),
   by omega, by omega⟩

/-- Witness for `poll_timeout_elapsed_bounds` at the default timeout 30. -/
theorem poll_timeout_elapsed_bounds_witness :
    pollLoop (fun _ => .ok false) 30 0 = .timedOut 31 :=
  (poll_timeout_elapsed_bounds (fun _ => .ok false) 30 (fun _ => rfl)).1

/-- Helper: once a display is published process-wide, every further acquire
reuses it: the process-wide state does not change. -/
theorem runAcquires_reuses (d : Nat × Nat) (c : Nat) :
    ∀ ps, VirtualDisplay.runAcquires false { shared := some d, created := c } ps =
      { shared := some d, created := c } := by
  intro ps
  induction ps with
  | nil => rfl
  | cons p rest ih =>
    obtain ⟨w, h⟩ := p
    exact ih

/-- Helper: from a published state, every state in the acquire trace is that
same state. -/
theorem acquireTrace_reuses (d : Nat × Nat) (c : Nat) :
    ∀ ps s, s ∈ VirtualDisplay.acquireTrace false { shared := some d, created := c } ps →
      s = { shared := some d, created := c } := by
  intro ps
  induction ps with
  | nil =>
    intro s hs
    simpa [VirtualDisplay.acquireTrace] using hs
  | cons p rest ih =>
    obtain ⟨w, h⟩ := p
    intro s hs
    rcases List.mem_cons.mp hs with rfl | hs2
    · rfl
    · exact ih s hs2

/-- C9: on a platform with a display server, N ≥ 1 acquires before any
release construct and start exactly one `Display`, published process-wide
with the dimensions of the first requester (dimensions of later requesters
are ignored), and at every point along the way at most one instance exists. -/
theorem acquire_creates_exactly_one_display (p : Option Nat × Option Nat)
    (ps : List (Option Nat × Option Nat)) :
    VirtualDisplay.runAcquires false { shared := none, created := 0 } (p :: ps) =
      { shared := some (p.1.getD 1024, p.2.getD 768), created := 1 } ∧
    ∀ s ∈ VirtualDisplay.acquireTrace false { shared := none, created := 0 } (p :: ps),
      s.created ≤ 1 := by
  obtain ⟨w, h⟩ := p
  constructor
  · show VirtualDisplay.runAcquires false
        { shared := some (w.getD 1024, h.getD 768), created := 1 } ps = _
    exact runAcquires_reuses _ 1 ps
  · intro s hs
    have hs2 : s ∈ ({ shared := none, created := 0 } : VDState) ::
        VirtualDisplay.acquireTrace false
          { shared := some (w.getD 1024, h.getD 768), created := 1 } ps := hs
    rcases List.mem_cons.mp hs2 with rfl | hs3
    · exact Nat.zero_le 1
    · rw [acquireTrace_reuses _ 1 ps s hs3]

/-- Witness for `acquire_creates_exactly_one_display`: two acquires, the
first asking 800x600 and the second asking nothing, publish one 800x600
display; the trace state reached after both acquires has at most one
instance. -/
theorem acquire_creates_exactly_one_display_witness :
    VirtualDisplay.runAcquires false { shared := none, created := 0 }
      [(some 800, some 600), (none, none)] = { shared := some (800, 600), created := 1 } ∧
    ({ shared := some (800, 600), created := 1 } : VDState).created ≤ 1 :=
  ⟨(acquire_creates_exactly_one_display (some 800, some 600) [(none, none)]).1,
   (acquire_creates_exactly_one_display (some 800, some 600) [(none, none)]).2
     { shared := some (800, 600), created := 1 } (by decide)⟩

/-- Helper: what the `prepare` loop computes, for module lists without a
`KeyboardInterrupt`: the accumulated problems are the non-skipped failing
modules, and the loop ends in `ToolError` on them iff there are any, else in
`NormalShutdown`. -/
theorem prepareLoop_characterization (inc exc : Finset String) :
    ∀ (mods : List (String × CheckOutcome)) (probs : List String),
    (∀ p ∈ mods, p.2 ≠ CheckOutcome.interrupt) →
    InstallChecker.prepareLoop inc exc mods probs =
      if probs ++ InstallChecker.failingModules inc exc mods = [] then .normalShutdown
      else .toolError (probs ++ InstallChecker.failingModules inc exc mods) := by
  intro mods
  induction mods with
  | nil =>
    intro probs _
    rcases probs with _ | ⟨a, probs⟩ <;>
      simp [InstallChecker.prepareLoop, InstallChecker.failingModules]
  | cons q rest ih =>
    obtain ⟨name, oc⟩ := q
    intro probs hno
    have hrest : ∀ p ∈ rest, p.2 ≠ CheckOutcome.interrupt :=
      fun p hp => hno p (List.mem_cons_of_mem _ hp)
    by_cases h1 : inc ≠ ∅ ∧ name ∉ inc
    · have hsk : InstallChecker.skipsModule inc exc name = true := by
        simp [InstallChecker.skipsModule, h1]
      simp only [InstallChecker.prepareLoop, if_pos h1, InstallChecker.failingModules,
        List.filter_cons, hsk, Bool.not_true, Bool.false_and, if_neg (by simp : ¬ false = true)]
      exact ih probs hrest
    · by_cases h2 : name ∈ exc
      · have h2' : exc ≠ ∅ ∧ name ∈ exc := ⟨Finset.ne_empty_of_mem h2, h2⟩
        have hsk : InstallChecker.skipsModule inc exc name = true := by
          simp [InstallChecker.skipsModule, h2]
        simp only [InstallChecker.prepareLoop, if_neg h1, if_pos h2', InstallChecker.failingModules,
          List.filter_cons, hsk, Bool.not_true, Bool.false_and, if_neg (by simp : ¬ false = true)]
        exact ih probs hrest
      · have h2' : ¬ (exc ≠ ∅ ∧ name ∈ exc) := fun hc => h2 hc.2
        have hsk : InstallChecker.skipsModule inc exc name = false := by
          simp [InstallChecker.skipsModule, h2]
          tauto
        have hfm : InstallChecker.failingModules inc exc ((name, oc) :: rest) =
            (if oc = CheckOutcome.fails
              then name :: InstallChecker.failingModules inc exc rest
              else InstallChecker.failingModules inc exc rest) := by
          simp only [InstallChecker.failingModules, List.filter_cons, hsk, Bool.not_false,
            Bool.true_and]
          by_cases hoc : oc = CheckOutcome.fails <;> simp [hoc]
        match oc, hno (name, oc) (List.mem_cons_self _ _) with
        | .ok, _ =>
          simp only [InstallChecker.prepareLoop, if_neg h1, if_neg h2', hfm]
          simpa using ih probs hrest
        | .fails, _ =>
          simp only [InstallChecker.prepareLoop, if_neg h1, if_neg h2', hfm]
          rw [ih (probs ++ [name]) hrest]
          simp [List.append_assoc]

/-- C7: over any configured component list containing no cancellation, the
audit runs every non-skipped check, aggregates every failure, and never
returns normally: it raises `ToolError` naming exactly the failing
components (all of them, in order) if any failed, and otherwise raises the
distinct `NormalShutdown` signal; a cancellation during a check is re-raised
immediately. -/
theorem prepare_aggregates_failures_never_returns (inc exc : Finset String)
    (mods : List (String × CheckOutcome))
    (hno : ∀ p ∈ mods, p.2 ≠ CheckOutcome.interrupt) :
    (InstallChecker.failingModules inc exc mods ≠ [] →
      InstallChecker.prepare inc exc mods =
        .toolError (InstallChecker.failingModules inc exc mods)) ∧
    (InstallChecker.failingModules inc exc mods = [] →
      InstallChecker.prepare inc exc mods = .normalShutdown) ∧
    (∀ name rest probs, InstallChecker.skipsModule inc exc name = false →
      InstallChecker.prepareLoop inc exc ((name, CheckOutcome.interrupt) :: rest) probs =
        .interrupted) ∧
    (∀ probs, PrepareResult.toolError probs ≠ PrepareResult.normalShutdown) := by
  refine ⟨?_, ?_, ?_, fun probs hc => PrepareResult.noConfusion hc⟩
  · intro hne
    rw [InstallChecker.prepare, prepareLoop_characterization inc exc mods [] hno]
    simp [hne]
  · intro hnil
    rw [InstallChecker.prepare, prepareLoop_characterization inc exc mods [] hno]
    simp [hnil]
  · intro name rest probs hsk
    have hsk' : ¬ ((inc ≠ ∅ ∧ name ∉ inc) ∨ name ∈ exc) := by
      simpa [InstallChecker.skipsModule] using hsk
    have h1 : ¬ (inc ≠ ∅ ∧ name ∉ inc) := fun hc => hsk' (Or.inl hc)
    have h2 : ¬ (exc ≠ ∅ ∧ name ∈ exc) := fun hc => hsk' (Or.inr hc.2)
    simp only [InstallChecker.prepareLoop, if_neg h1, if_neg h2]

/-- Witness for `prepare_aggregates_failures_never_returns`: with no filters,
components a: ok, b: fails, c: fails give `ToolError ["b", "c"]` (both
failures named), and a single passing component gives `NormalShutdown`. -/
theorem prepare_aggregates_failures_never_returns_witness :
    InstallChecker.prepare ∅ ∅ [("a", .ok), ("b", .fails), ("c", .fails)] =
      .toolError ["b", "c"] ∧
    InstallChecker.prepare ∅ ∅ [("a", .ok)] = .normalShutdown := by
  constructor
  · have h := (prepare_aggregates_failures_never_returns ∅ ∅
      [("a", .ok), ("b", .fails), ("c", .fails)] (by decide)).1 (by decide)
    rwa [show InstallChecker.failingModules ∅ ∅
      [("a", .ok), ("b", .fails), ("c", .fails)] = ["b", "c"] from by decide] at h
  · exact (prepare_aggregates_failures_never_returns ∅ ∅
      [("a", .ok)] (by decide)).2.1 (by decide)

/-- Helper: the modules submitted to `_check_module` (interrupt-free runs)
are exactly the ones the skip rule keeps. -/
theorem checkedModules_characterization (inc exc : Finset String) :
    ∀ mods : List (String × CheckOutcome),
    (∀ p ∈ mods, p.2 ≠ CheckOutcome.interrupt) →
    InstallChecker.checkedModules inc exc mods =
      (mods.filter fun p => !InstallChecker.skipsModule inc exc p.1).map Prod.fst := by
  intro mods
  induction mods with
  | nil => intro _; rfl
  | cons q rest ih =>
    obtain ⟨name, oc⟩ := q
    intro hno
    have hrest : ∀ p ∈ rest, p.2 ≠ CheckOutcome.interrupt :=
      fun p hp => hno p (List.mem_cons_of_mem _ hp)
    by_cases h1 : inc ≠ ∅ ∧ name ∉ inc
    · have hsk : InstallChecker.skipsModule inc exc name = true := by
        simp [InstallChecker.skipsModule, h1]
      simp only [InstallChecker.checkedModules, if_pos h1, List.filter_cons, hsk,
        Bool.not_true, if_neg (by simp : ¬ false = true)]
      exact ih hrest
    · by_cases h2 : name ∈ exc
      · have h2' : exc ≠ ∅ ∧ name ∈ exc := ⟨Finset.ne_empty_of_mem h2, h2⟩
        have hsk : InstallChecker.skipsModule inc exc name = true := by
          simp [InstallChecker.skipsModule, h2]
        simp only [InstallChecker.checkedModules, if_neg h1, if_pos h2', List.filter_cons, hsk,
          Bool.not_true, if_neg (by simp : ¬ false = true)]
        exact ih hrest
      · have h2' : ¬ (exc ≠ ∅ ∧ name ∈ exc) := fun hc => h2 hc.2
        have hsk : InstallChecker.skipsModule inc exc name = false := by
          simp [InstallChecker.skipsModule, h2]
          tauto
        match oc, hno (name, oc) (List.mem_cons_self _ _) with
        | .ok, _ =>
          simp only [InstallChecker.checkedModules, if_neg h1, if_neg h2']
          simp [List.filter_cons, hsk, ih hrest]
        | .fails, _ =>
          simp only [InstallChecker.checkedModules, if_neg h1, if_neg h2']
          simp [List.filter_cons, hsk, ih hrest]

/-- C8: in an interrupt-free audit, a configured component is skipped iff
the include set is non-empty and does not contain its name, or the exclude
set contains its name (`skipsModule`); concretely, with include {a, b}
component c is skipped whatever the exclude set, and with exclude {b} and no
include exactly b is skipped while all others are checked. -/
theorem prepare_filtering_skip_rule (inc exc : Finset String)
    (mods : List (String × CheckOutcome))
    (hno : ∀ p ∈ mods, p.2 ≠ CheckOutcome.interrupt) :
    InstallChecker.checkedModules inc exc mods =
      (mods.filter fun p => !InstallChecker.skipsModule inc exc p.1).map Prod.fst ∧
    InstallChecker.checkedModules {"a", "b"} ∅
      [("a", .ok), ("b", .ok), ("c", .ok)] = ["a", "b"] ∧
    InstallChecker.checkedModules {"a", "b"} {"c"}
      [("a", .ok), ("b", .ok), ("c", .ok)] = ["a", "b"] ∧
    InstallChecker.checkedModules ∅ {"b"}
      [("a", .ok), ("b", .ok), ("c", .ok)] = ["a", "c"] ∧
    InstallChecker.prepare ∅ {"b"} [("a", .ok), ("b", .fails), ("c", .fails)] =
      .toolError ["c"] :=
  ⟨checkedModules_characterization inc exc mods hno, by decide, by decide, by decide, by decide⟩

/-- Witness for `prepare_filtering_skip_rule` at a concrete interrupt-free
module list. -/
theorem prepare_filtering_skip_rule_witness :
    InstallChecker.checkedModules {"x"} ∅ [("x", .ok), ("y", .fails)] =
      (([("x", CheckOutcome.ok), ("y", CheckOutcome.fails)].filter
        fun p => !InstallChecker.skipsModule {"x"} ∅ p.1).map Prod.fst) :=
  (prepare_filtering_skip_rule {"x"} ∅ [("x", .ok), ("y", .fails)] (by decide)).1

/-- C10: the filter coercion strips whitespace from the whole string only,
then splits on commas, so `"a, b"` yields the set {"a", " b"} — in which the
component name "b" is never found, hence with that include set "b" is
skipped; a list or dict yields the set of its elements or keys; any other
value (a number, None, ...) silently coerces to the empty set, i.e. no
filter. -/
theorem parse_module_filter_coercion :
    InstallChecker._parse_module_filter (.str "a, b") = {"a", " b"} ∧
    "b" ∉ InstallChecker._parse_module_filter (.str "a, b") ∧
    InstallChecker.skipsModule (InstallChecker._parse_module_filter (.str "a, b")) ∅ "b" =
      true ∧
    (∀ xs, InstallChecker._parse_module_filter (.list xs) = xs.toFinset) ∧
    (∀ keys, InstallChecker._parse_module_filter (.dict keys) = keys.toFinset) ∧
    InstallChecker._parse_module_filter .other = ∅ :=
  ⟨by decide, by decide, by decide, fun xs => rfl, fun keys => rfl, rfl⟩

end Services
